import Mathlib

/-!
Verification of the apio runtime PIO assembler/disassembler (header-only C
library: `apio.h`, `apio_reg.h`, `apio_dis.h`, example `main.c`).

The C macros and functions are shallowly embedded as Lean definitions:

* machine integers (`uint8_t`, `uint16_t`, `uint32_t`) are `Nat` with an
  explicit `% 2^w` applied exactly where a C assignment to a field of that
  width truncates, and `Int` arithmetic reduced mod `2^32` where C converts a
  signed `int` to `uint32_t`;
* the builder macros (`APIO_SET_BLOCK`, `APIO_SET_SM`, `APIO_ADD_INSTR`, ...)
  become a step function over an explicit state record.  Two state records
  are used, mirroring the two compilation modes of `apio.h`:
  the hardware build (stack scratch buffer plus memory-mapped registers,
  `!defined(APIO_EMULATION)`) and the emulated build
  (`_apio_emulated_pio_t` shadow structure, `defined(APIO_EMULATION)`);
* the disassembler `apio_instruction_decoder` becomes a total function from
  a 16-bit word and an origin offset to a `String`, following the C control
  flow branch by branch.
-/

namespace Apio

/-! ## Constants (`apio.h` lines 102-105) -/

def APIO_MAX_PIO_INSTRS : Nat := 32
def APIO_MAX_SMS_PER_BLOCK : Nat := 4
def APIO_MAX_PIO_BLOCKS : Nat := 3
def APIO_MAX_FIFO_DEPTH : Nat := 4

/-! ## Register packing macros (`apio_reg.h`) -/

/-- `APIO_CLKDIV(INT, FRAC)`: `((INT) & 0xFFFF) << 16 | ((FRAC) & 0xFF) << 8`. -/
def APIO_CLKDIV (int_ frac : Nat) : Nat :=
  ((int_ &&& 0xFFFF) <<< 16) ||| ((frac &&& 0xFF) <<< 8)

/-- `APIO_CLKDIV_INT_FROM_REG(REG)`: `((REG) >> 16) & 0xFFFF`. -/
def APIO_CLKDIV_INT_FROM_REG (reg : Nat) : Nat := (reg >>> 16) &&& 0xFFFF

/-- `APIO_CLKDIV_FRAC_FROM_REG(REG)`: `((REG) >> 8) & 0xFF`. -/
def APIO_CLKDIV_FRAC_FROM_REG (reg : Nat) : Nat := (reg >>> 8) &&& 0xFF

/-- `APIO_WRAP_BOTTOM_AS_REG(X)`: `((X) & 0x1F) << 7`. -/
def APIO_WRAP_BOTTOM_AS_REG (x : Nat) : Nat := (x &&& 0x1F) <<< 7

/-- `APIO_WRAP_TOP_AS_REG(X)`: `((X) & 0x1F) << 12`. -/
def APIO_WRAP_TOP_AS_REG (x : Nat) : Nat := (x &&& 0x1F) <<< 12

/-- `APIO_WRAP_TOP_FROM_REG(REG)`: `((REG) >> 12) & 0x1F`. -/
def APIO_WRAP_TOP_FROM_REG (reg : Nat) : Nat := (reg >>> 12) &&& 0x1F

/-- `APIO_WRAP_BOTTOM_FROM_REG(REG)`: `((REG) >> 7) & 0x1F`. -/
def APIO_WRAP_BOTTOM_FROM_REG (reg : Nat) : Nat := (reg >>> 7) &&& 0x1F

/-- `APIO_CTRL_SM_ENABLE(X)`: `((X & 0xf) << 0)` - the value written to a
block's CTRL register when enabling state machines. -/
def APIO_CTRL_SM_ENABLE (x : Nat) : Nat := (x &&& 0xF) <<< 0

/-! ## Instruction encoding macros (`apio.h` lines 488-722, the ones the
claims use) -/

/-- `APIO_ADD_DELAY(INST, DELAY)`: `((INST) | (((DELAY) & 0x1F) << 8))`. -/
def APIO_ADD_DELAY (inst delay : Nat) : Nat := inst ||| ((delay &&& 0x1F) <<< 8)

/-- `APIO_JMP(X)`: `(0x0000 | ((X) & 0x1F))` - unconditional jump. -/
def APIO_JMP (x : Nat) : Nat := 0x0000 ||| (x &&& 0x1F)

/-- `APIO_SET_PINS(VALUE)`: `(0xE000 | ((VALUE) & 0x1F))`. -/
def APIO_SET_PINS (value : Nat) : Nat := 0xE000 ||| (value &&& 0x1F)

/-- `APIO_SET_PIN_DIRS(VALUE)`: `(0xE080 | ((VALUE) & 0x1F))`. -/
def APIO_SET_PIN_DIRS (value : Nat) : Nat := 0xE080 ||| (value &&& 0x1F)

/-! ## Compile-time range checks -/

/-- `_STATIC_BLOCK_ASSERT(BLOCK)`: `(BLOCK) >= 0 && (BLOCK) < APIO_MAX_PIO_BLOCKS`
(the `>= 0` clause is vacuous for `Nat`). -/
def STATIC_BLOCK_ASSERT (block : Nat) : Prop := block < APIO_MAX_PIO_BLOCKS

/-- `_STATIC_SM_ASSERT(SM)`: `(SM) >= 0 && (SM) < APIO_MAX_SMS_PER_BLOCK`. -/
def STATIC_SM_ASSERT (sm : Nat) : Prop := sm < APIO_MAX_SMS_PER_BLOCK

/-- The `_Static_assert` guarding `APIO_ENABLE_SM` (`apio.h` line 452):
`(SM_MASK < 0xF)`. -/
def APIO_ENABLE_SM_CHECK (sm_mask : Nat) : Prop := sm_mask < 0xF

/-- The `_Static_assert` guarding `APIO_ENABLE_SMS` (`apio.h` line 297):
`(SMS_MASK) > 0 && (SMS_MASK) < (1 << APIO_MAX_SMS_PER_BLOCK)`. -/
def APIO_ENABLE_SMS_CHECK (sms_mask : Nat) : Prop :=
  0 < sms_mask ∧ sms_mask < (1 <<< APIO_MAX_SMS_PER_BLOCK)

instance : DecidablePred APIO_ENABLE_SM_CHECK := fun m =>
  inferInstanceAs (Decidable (m < 0xF))

instance : DecidablePred APIO_ENABLE_SMS_CHECK := fun m =>
  inferInstanceAs (Decidable (0 < m ∧ m < (1 <<< APIO_MAX_SMS_PER_BLOCK)))

/-! ## Disassembler (`apio_dis.h`)

Lookup tables `piorom_get_*` and the decoder `apio_instruction_decoder`,
translated branch by branch.  `append_uint` prints the decimal digits of a
`uint32_t`; its Lean counterpart is `Nat.repr`, which produces the same
decimal rendering for every value below `2^32` (the C digit buffer `temp[11]`
holds all ten digits of a `uint32_t`). -/

def piorom_get_jmp_condition (cond : Nat) : String :=
  if cond = 0 then ""
  else if cond = 1 then "!x"
  else if cond = 2 then "x--"
  else if cond = 3 then "!y"
  else if cond = 4 then "y--"
  else if cond = 5 then "x!=y"
  else if cond = 6 then "pin"
  else if cond = 7 then "!osre"
  else "???"

def piorom_get_wait_source (src : Nat) : String :=
  if src = 0 then "gpio"
  else if src = 1 then "pin"
  else if src = 2 then "irq"
  else if src = 3 then "jmppin"
  else "???"

def piorom_get_in_source (src : Nat) : String :=
  if src = 0 then "pins"
  else if src = 1 then "x"
  else if src = 2 then "y"
  else if src = 3 then "null"
  else if src = 4 then "reserved"
  else if src = 5 then "reserved"
  else if src = 6 then "isr"
  else if src = 7 then "osr"
  else "???"

def piorom_get_out_dest (dest : Nat) : String :=
  if dest = 0 then "pins"
  else if dest = 1 then "x"
  else if dest = 2 then "y"
  else if dest = 3 then "null"
  else if dest = 4 then "pindirs"
  else if dest = 5 then "pc"
  else if dest = 6 then "isr"
  else if dest = 7 then "exec"
  else "???"

def piorom_get_mov_dest (dest : Nat) : String :=
  if dest = 0 then "pins"
  else if dest = 1 then "x"
  else if dest = 2 then "y"
  else if dest = 3 then "pindirs"
  else if dest = 4 then "exec"
  else if dest = 5 then "pc"
  else if dest = 6 then "isr"
  else if dest = 7 then "osr"
  else "???"

def piorom_get_mov_op (op : Nat) : String :=
  if op = 0 then ""
  else if op = 1 then "~"
  else if op = 2 then "::"
  else if op = 3 then "reserved"
  else "???"

def piorom_get_mov_source (src : Nat) : String :=
  if src = 0 then "pins"
  else if src = 1 then "x"
  else if src = 2 then "y"
  else if src = 3 then "null"
  else if src = 4 then "reserved"
  else if src = 5 then "status"
  else if src = 6 then "isr"
  else if src = 7 then "osr"
  else "???"

def piorom_get_set_dest (dest : Nat) : String :=
  if dest = 0 then "pins"
  else if dest = 1 then "x"
  else if dest = 2 then "y"
  else if dest = 3 then "reserved"
  else if dest = 4 then "pindirs"
  else if dest = 5 then "reserved"
  else if dest = 6 then "reserved"
  else if dest = 7 then "reserved"
  else "???"

/-- `append_delay`: appends `" [N]"` when the delay field is non-zero. -/
def append_delay (dest : String) (delay : Nat) : String :=
  if delay > 0 then dest ++ " [" ++ Nat.repr delay ++ "]" else dest

/-- The C expression `(uint32_t)(e)` for a signed `int` value `e`:
conversion to `uint32_t` reduces the value modulo `2^32`. -/
def uint32_of_int (x : Int) : Nat := (x % ((2 : Int) ^ 32)).toNat

/-- `apio_instruction_decoder(instr, out_str, start_offset)` from
`apio_dis.h` lines 255-463.  `instr` is the 16-bit instruction word,
`start_offset` the `uint8_t` index of the program's first instruction; the
result is the string written into `out_str`.  In the JMP branch the C code
computes `address - start_offset` on promoted `int`s and passes it to
`append_uint(char*, uint32_t)`, hence `uint32_of_int`. -/
def apio_instruction_decoder (instr : Nat) (start_offset : Nat) : String :=
  let opcode := (instr >>> 13) &&& 0x7
  let delay := (instr >>> 8) &&& 0x1F
  if opcode = 0 then -- JMP
    let condition := (instr >>> 5) &&& 0x7
    let address := instr &&& 0x1F
    let p := "jmp "
    let p := if condition ≠ 0 then
        p ++ piorom_get_jmp_condition condition ++ ", "
      else p
    let p := p ++ Nat.repr (uint32_of_int ((address : Int) - (start_offset : Int)))
    append_delay p delay
  else if opcode = 1 then -- WAIT
    let pol := (instr >>> 7) &&& 0x1
    let source := (instr >>> 5) &&& 0x3
    let idx_mode := (instr >>> 3) &&& 0x3
    let p := "wait " ++ Nat.repr pol ++ " " ++ piorom_get_wait_source source
    let p := if source = 2 then
        (if idx_mode = 1 then p ++ " prev"
         else if idx_mode = 3 then p ++ " next"
         else p)
      else p
    let index := if source = 2 then instr &&& 0x7 else instr &&& 0x1F
    append_delay (p ++ " " ++ Nat.repr index) delay
  else if opcode = 2 then -- IN
    let source := (instr >>> 5) &&& 0x7
    let bitcount := instr &&& 0x1F
    append_delay ("in " ++ piorom_get_in_source source ++ ", " ++ Nat.repr bitcount) delay
  else if opcode = 3 then -- OUT
    let dest := (instr >>> 5) &&& 0x7
    let bitcount := instr &&& 0x1F
    append_delay ("out " ++ piorom_get_out_dest dest ++ ", " ++ Nat.repr bitcount) delay
  else if opcode = 4 then -- PUSH/PULL/MOV indexed
    let bit7 := (instr >>> 7) &&& 0x1
    let bit4 := (instr >>> 4) &&& 0x1
    let p :=
      if bit4 = 0 then
        let if_flag := (instr >>> 6) &&& 0x1
        let block := (instr >>> 5) &&& 0x1
        if bit7 = 0 then
          "push" ++ (if if_flag ≠ 0 then " iffull " else " ")
            ++ (if block ≠ 0 then "block" else "noblock")
        else
          "pull" ++ (if if_flag ≠ 0 then " ifempty " else " ")
            ++ (if block ≠ 0 then "block" else "noblock")
      else
        let idx_i := (instr >>> 3) &&& 0x1
        let index := instr &&& 0x3
        if bit7 = 0 then
          "mov rxfifo[" ++ (if idx_i ≠ 0 then Nat.repr index else "y") ++ "], isr"
        else
          "mov txfifo[" ++ (if idx_i ≠ 0 then Nat.repr index else "y") ++ "], osr"
    append_delay p delay
  else if opcode = 5 then -- MOV
    let dest := (instr >>> 5) &&& 0x7
    let op := (instr >>> 3) &&& 0x3
    let source := instr &&& 0x7
    let p :=
      if dest = 2 ∧ op = 0 ∧ source = 2 then "nop"
      else "mov " ++ piorom_get_mov_dest dest ++ ", "
             ++ piorom_get_mov_op op ++ piorom_get_mov_source source
    append_delay p delay
  else if opcode = 6 then -- IRQ
    let clr := (instr >>> 6) &&& 0x1
    let wait := (instr >>> 5) &&& 0x1
    let idx_mode := (instr >>> 3) &&& 0x3
    let index := instr &&& 0x7
    let p := "irq "
    let p := if idx_mode = 1 then p ++ "prev "
      else if idx_mode = 3 then p ++ "next " else p
    let p := if clr ≠ 0 then p ++ "clear "
      else if wait ≠ 0 then p ++ "wait " else p
    let p := p ++ Nat.repr index
    let p := if idx_mode = 2 then p ++ " rel" else p
    append_delay p delay
  else -- SET (opcode = 7)
    let dest := (instr >>> 5) &&& 0x7
    let data := instr &&& 0x1F
    append_delay ("set " ++ piorom_get_set_dest dest ++ ", " ++ Nat.repr data) delay

/-! ## Builder state

`apio.h` compiles in one of two modes.  Without `APIO_EMULATION` the builder
keeps its bookkeeping in stack locals declared by `APIO_ASM_INIT` (a single
shared `instr_scratch` buffer, per-block cursors, per-block-per-SM offset
descriptors) and every backend primitive is a memory-mapped register write;
with `APIO_EMULATION` all of it lives in the global shadow structure
`_apio_emulated_pio_t` and backend primitives mutate that structure.

Point-function updates model the C array stores; `upd1`/`upd2`/`upd3` write
one cell of a 1-, 2- or 3-dimensional array. -/

def upd1 (f : Nat → Nat) (i v : Nat) : Nat → Nat :=
  fun a => if a = i then v else f a

def upd2 (f : Nat → Nat → Nat) (i j v : Nat) : Nat → Nat → Nat :=
  fun a b => if a = i ∧ b = j then v else f a b

def upd3 (f : Nat → Nat → Nat → Nat) (i j k v : Nat) : Nat → Nat → Nat → Nat :=
  fun a b c => if a = i ∧ b = j ∧ c = k then v else f a b c

/-- `pio_sm_reg_t` (`apio_reg.h` lines 36-43): the six per-SM `uint32_t`
registers. -/
structure pio_sm_reg_t where
  clkdiv : Nat
  execctrl : Nat
  shiftctrl : Nat
  addr : Nat
  instr : Nat
  pinctrl : Nat
deriving Repr, DecidableEq

def updReg (f : Nat → Nat → pio_sm_reg_t) (i j : Nat) (v : pio_sm_reg_t) :
    Nat → Nat → pio_sm_reg_t :=
  fun a b => if a = i ∧ b = j then v else f a b

/-- The emulated shadow state `_apio_emulated_pio_t` (`apio.h` lines
109-132).  C arrays become curried functions indexed by block / SM /
element; `end` is a Lean keyword, so that field is `end_`. -/
structure _apio_emulated_pio_t where
  irq : Nat → Nat
  first_instr : Nat → Nat → Nat
  start : Nat → Nat → Nat
  end_ : Nat → Nat → Nat
  wrap_bottom : Nat → Nat → Nat
  wrap_top : Nat → Nat → Nat
  pio_sm_reg : Nat → Nat → pio_sm_reg_t
  instr : Nat → Nat → Nat
  pre_instr : Nat → Nat → Nat → Nat
  pre_instr_count : Nat → Nat → Nat
  tx_fifos : Nat → Nat → Nat → Nat
  tx_fifo_count : Nat → Nat → Nat
  rx_fifos : Nat → Nat → Nat → Nat
  rx_fifo_count : Nat → Nat → Nat
  offset : Nat → Nat
  max_offset : Nat → Nat
  enabled_sms : Nat → Nat
  block : Nat
  sm : Nat
  block_ended : Nat → Nat
  pios_enabled : Nat

/-- The hardware-mode build state: the stack locals of `APIO_ASM_INIT`
(`apio.h` lines 263-272) together with the memory-mapped peripheral state
the backend primitives write (per-block CTRL register, per-block instruction
memory, per-block-per-SM register file, TX/RX FIFO registers).  Note that
`instr_scratch` is a single buffer shared by all blocks, exactly as in the
C, and that each MMIO register cell is modelled at its (block, SM) index -
the C address computation `BASE + offset + stride*index` is injective, one
cell per index. -/
structure ApioHwState where
  instr_scratch : Nat → Nat
  first_instr : Nat → Nat → Nat
  start : Nat → Nat → Nat
  end_ : Nat → Nat → Nat
  wrap_bottom : Nat → Nat → Nat
  wrap_top : Nat → Nat → Nat
  offset : Nat → Nat
  block : Nat
  sm : Nat
  ctrl : Nat → Nat
  instr_mem : Nat → Nat → Nat
  sm_reg : Nat → Nat → pio_sm_reg_t
  txf : Nat → Nat → Nat
  rxf : Nat → Nat → Nat

def zero_sm_reg : pio_sm_reg_t := ⟨0, 0, 0, 0, 0, 0⟩

/-- The emulated state right after `APIO_ASM_INIT()` in emulation mode
(`apio.h` lines 274-277): the whole structure is zeroed
(`_apio_emulated_pio = (_apio_emulated_pio_t){0}`), only `pios_enabled` is
carried over (zero at the start of the first session). -/
def emuZero : _apio_emulated_pio_t where
  irq := fun _ => 0
  first_instr := fun _ _ => 0
  start := fun _ _ => 0
  end_ := fun _ _ => 0
  wrap_bottom := fun _ _ => 0
  wrap_top := fun _ _ => 0
  pio_sm_reg := fun _ _ => zero_sm_reg
  instr := fun _ _ => 0
  pre_instr := fun _ _ _ => 0
  pre_instr_count := fun _ _ => 0
  tx_fifos := fun _ _ _ => 0
  tx_fifo_count := fun _ _ => 0
  rx_fifos := fun _ _ _ => 0
  rx_fifo_count := fun _ _ => 0
  offset := fun _ => 0
  max_offset := fun _ => 0
  enabled_sms := fun _ => 0
  block := 0
  sm := 0
  block_ended := fun _ => 0
  pios_enabled := 0

/-- The hardware-mode state at the start of a session: the `APIO_ASM_INIT`
locals are zero-initialised (`_OFFSET_ARRAY_INIT`, `__blk = 0`, `__sm = 0`)
and the peripheral registers hold their post-reset value 0. -/
def hwInit : ApioHwState where
  instr_scratch := fun _ => 0
  first_instr := fun _ _ => 0
  start := fun _ _ => 0
  end_ := fun _ _ => 0
  wrap_bottom := fun _ _ => 0
  wrap_top := fun _ _ => 0
  offset := fun _ => 0
  block := 0
  sm := 0
  ctrl := fun _ => 0
  instr_mem := fun _ _ => 0
  sm_reg := fun _ _ => zero_sm_reg
  txf := fun _ _ => 0
  rxf := fun _ _ => 0

/-- One builder call.  Each constructor is one of the `apio.h` macros
(arguments are the macro arguments). -/
inductive BuildOp where
  | setBlock : Nat → BuildOp
  | setSm : Nat → BuildOp
  | startMark : BuildOp
  | endMark : BuildOp
  | wrapBottom : BuildOp
  | wrapTop : BuildOp
  | addInstr : Nat → BuildOp
  | clkdivSet : Nat → Nat → BuildOp
  | execctrlSet : Nat → BuildOp
  | shiftctrlSet : Nat → BuildOp
  | pinctrlSet : Nat → BuildOp
  | execInstr : Nat → BuildOp
  | endBlock : BuildOp
  | enableSms : Nat → Nat → BuildOp
  | enableSm : Nat → Nat → BuildOp
  | txfWrite : Nat → BuildOp
  | rxfWrite : Nat → BuildOp

/-- One step of the emulated build (`APIO_EMULATION` branches of the
`apio.h` macros).  Widths: descriptor offsets, cursors and counts are
`uint8_t` (mod `2^8` on increment), instruction words `uint16_t`
(mod `2^16` on store), registers and FIFO words `uint32_t` (mod `2^32` on
store).  `APIO_ADD_INSTR` stores at the current cursor and post-increments
with no bounds check; `APIO_TXF`/`APIO_RXF` writes store at the current
count and post-increment with no bounds check; `APIO_ENABLE_SM` ORs the
mask into `enabled_sms` while `APIO_ENABLE_SMS` overwrites it. -/
def emuStep (op : BuildOp) (s : _apio_emulated_pio_t) : _apio_emulated_pio_t :=
  match op with
  | .setBlock b => { s with block := b }
  | .setSm u =>
      { s with
        sm := u
        first_instr := upd2 s.first_instr s.block u (s.offset s.block)
        start := upd2 s.start s.block u (s.offset s.block)
        wrap_bottom := upd2 s.wrap_bottom s.block u (s.offset s.block)
        wrap_top := upd2 s.wrap_top s.block u (s.offset s.block)
        end_ := upd2 s.end_ s.block u (s.offset s.block) }
  | .startMark => { s with start := upd2 s.start s.block s.sm (s.offset s.block) }
  | .endMark => { s with end_ := upd2 s.end_ s.block s.sm (s.offset s.block) }
  | .wrapBottom =>
      { s with wrap_bottom := upd2 s.wrap_bottom s.block s.sm (s.offset s.block) }
  | .wrapTop =>
      { s with
        wrap_top := upd2 s.wrap_top s.block s.sm (s.offset s.block)
        end_ := upd2 s.end_ s.block s.sm (s.offset s.block) }
  | .addInstr i =>
      { s with
        instr := upd2 s.instr s.block (s.offset s.block) (i % 2 ^ 16)
        offset := upd1 s.offset s.block ((s.offset s.block + 1) % 2 ^ 8) }
  | .clkdivSet int_ frac =>
      { s with
        pio_sm_reg := updReg s.pio_sm_reg s.block s.sm
          { s.pio_sm_reg s.block s.sm with clkdiv := APIO_CLKDIV int_ frac } }
  | .execctrlSet e =>
      { s with
        pio_sm_reg := updReg s.pio_sm_reg s.block s.sm
          { s.pio_sm_reg s.block s.sm with
            execctrl :=
              ((e % 2 ^ 32)
                ||| APIO_WRAP_BOTTOM_AS_REG (s.wrap_bottom s.block s.sm)
                ||| APIO_WRAP_TOP_AS_REG (s.wrap_top s.block s.sm)) % 2 ^ 32 } }
  | .shiftctrlSet v =>
      { s with
        pio_sm_reg := updReg s.pio_sm_reg s.block s.sm
          { s.pio_sm_reg s.block s.sm with shiftctrl := v % 2 ^ 32 } }
  | .pinctrlSet v =>
      { s with
        pio_sm_reg := updReg s.pio_sm_reg s.block s.sm
          { s.pio_sm_reg s.block s.sm with pinctrl := v % 2 ^ 32 } }
  | .execInstr i =>
      { s with
        pre_instr := upd3 s.pre_instr s.block s.sm
          (s.pre_instr_count s.block s.sm) (i % 2 ^ 16)
        pre_instr_count := upd2 s.pre_instr_count s.block s.sm
          ((s.pre_instr_count s.block s.sm + 1) % 2 ^ 8) }
  | .endBlock =>
      { s with max_offset := upd1 s.max_offset s.block (s.offset s.block) }
  | .enableSms b m =>
      { s with enabled_sms := upd1 s.enabled_sms b (m % 2 ^ 8) }
  | .enableSm b m =>
      { s with enabled_sms := upd1 s.enabled_sms b ((s.enabled_sms b ||| m) % 2 ^ 8) }
  | .txfWrite v =>
      { s with
        tx_fifos := upd3 s.tx_fifos s.block s.sm
          (s.tx_fifo_count s.block s.sm) (v % 2 ^ 32)
        tx_fifo_count := upd2 s.tx_fifo_count s.block s.sm
          ((s.tx_fifo_count s.block s.sm + 1) % 2 ^ 8) }
  | .rxfWrite v =>
      { s with
        rx_fifos := upd3 s.rx_fifos s.block s.sm
          (s.rx_fifo_count s.block s.sm) (v % 2 ^ 32)
        rx_fifo_count := upd2 s.rx_fifo_count s.block s.sm
          ((s.rx_fifo_count s.block s.sm + 1) % 2 ^ 8) }

/-- One step of the hardware build (`!defined(APIO_EMULATION)` branches).
Same bookkeeping macros; `APIO_ADD_INSTR` writes the single shared
`instr_scratch` buffer; `APIO_END_BLOCK` copies `instr_scratch[0 ..
__pio_offset[__blk])` into the block's instruction memory;
`APIO_ENABLE_SM`/`APIO_ENABLE_SMS` both assign `APIO_CTRL_SM_ENABLE(mask)`
to the block's CTRL register; `APIO_SM_EXEC_INSTR` writes the SM's `instr`
register. -/
def hwStep (op : BuildOp) (s : ApioHwState) : ApioHwState :=
  match op with
  | .setBlock b => { s with block := b }
  | .setSm u =>
      { s with
        sm := u
        first_instr := upd2 s.first_instr s.block u (s.offset s.block)
        start := upd2 s.start s.block u (s.offset s.block)
        wrap_bottom := upd2 s.wrap_bottom s.block u (s.offset s.block)
        wrap_top := upd2 s.wrap_top s.block u (s.offset s.block)
        end_ := upd2 s.end_ s.block u (s.offset s.block) }
  | .startMark => { s with start := upd2 s.start s.block s.sm (s.offset s.block) }
  | .endMark => { s with end_ := upd2 s.end_ s.block s.sm (s.offset s.block) }
  | .wrapBottom =>
      { s with wrap_bottom := upd2 s.wrap_bottom s.block s.sm (s.offset s.block) }
  | .wrapTop =>
      { s with
        wrap_top := upd2 s.wrap_top s.block s.sm (s.offset s.block)
        end_ := upd2 s.end_ s.block s.sm (s.offset s.block) }
  | .addInstr i =>
      { s with
        instr_scratch := upd1 s.instr_scratch (s.offset s.block) (i % 2 ^ 16)
        offset := upd1 s.offset s.block ((s.offset s.block + 1) % 2 ^ 8) }
  | .clkdivSet int_ frac =>
      { s with
        sm_reg := updReg s.sm_reg s.block s.sm
          { s.sm_reg s.block s.sm with clkdiv := APIO_CLKDIV int_ frac } }
  | .execctrlSet e =>
      { s with
        sm_reg := updReg s.sm_reg s.block s.sm
          { s.sm_reg s.block s.sm with
            execctrl :=
              ((e % 2 ^ 32)
                ||| APIO_WRAP_BOTTOM_AS_REG (s.wrap_bottom s.block s.sm)
                ||| APIO_WRAP_TOP_AS_REG (s.wrap_top s.block s.sm)) % 2 ^ 32 } }
  | .shiftctrlSet v =>
      { s with
        sm_reg := updReg s.sm_reg s.block s.sm
          { s.sm_reg s.block s.sm with shiftctrl := v % 2 ^ 32 } }
  | .pinctrlSet v =>
      { s with
        sm_reg := updReg s.sm_reg s.block s.sm
          { s.sm_reg s.block s.sm with pinctrl := v % 2 ^ 32 } }
  | .execInstr i =>
      { s with
        sm_reg := updReg s.sm_reg s.block s.sm
          { s.sm_reg s.block s.sm with instr := i % 2 ^ 32 } }
  | .endBlock =>
      { s with
        instr_mem := fun b j =>
          if b = s.block ∧ j < s.offset s.block then s.instr_scratch j
          else s.instr_mem b j }
  | .enableSms b m => { s with ctrl := upd1 s.ctrl b (APIO_CTRL_SM_ENABLE m) }
  | .enableSm b m => { s with ctrl := upd1 s.ctrl b (APIO_CTRL_SM_ENABLE m) }
  | .txfWrite v => { s with txf := upd2 s.txf s.block s.sm (v % 2 ^ 32) }
  | .rxfWrite v => { s with rxf := upd2 s.rxf s.block s.sm (v % 2 ^ 32) }

/-- Run a sequence of builder calls against the emulated backend. -/
def emuRun (ops : List BuildOp) (s : _apio_emulated_pio_t) : _apio_emulated_pio_t :=
  ops.foldl (fun t op => emuStep op t) s

/-- Run a sequence of builder calls against the hardware backend. -/
def hwRun (ops : List BuildOp) (s : ApioHwState) : ApioHwState :=
  ops.foldl (fun t op => hwStep op t) s

/-! ## Arithmetic helper lemmas for the C bit masks -/

theorem and_mask_31 (x : Nat) : x &&& 31 = x % 32 :=
  Nat.and_pow_two_sub_one_eq_mod x 5

theorem and_mask_ff (x : Nat) : x &&& 0xFF = x % 2 ^ 8 :=
  Nat.and_pow_two_sub_one_eq_mod x 8

theorem and_mask_ffff (x : Nat) : x &&& 0xFFFF = x % 2 ^ 16 :=
  Nat.and_pow_two_sub_one_eq_mod x 16

/-! ## Scenario operation lists -/

/-- Thirty-three `APIO_ADD_INSTR` calls into block 0 for one SM: one more
than the 32-entry instruction buffer holds. -/
def emit_33 : List BuildOp :=
  BuildOp.setBlock 0 :: BuildOp.setSm 0 ::
    List.replicate 33 (BuildOp.addInstr (APIO_SET_PIN_DIRS 1))

/-- Five writes to one SM's TX FIFO shadow queue: one more than the
4-entry queue holds. -/
def txf_5 : List BuildOp :=
  [BuildOp.setBlock 0, BuildOp.setSm 0, BuildOp.txfWrite 11, BuildOp.txfWrite 12,
   BuildOp.txfWrite 13, BuildOp.txfWrite 14, BuildOp.txfWrite 15]

/-- Two successive unit-enable calls (`APIO_ENABLE_SM`) on block 0: first
mask 1 (SM 0), then mask 2 (SM 1).  Both masks pass the macro's
`_Static_assert`. -/
def enable_twice : List BuildOp :=
  [BuildOp.enableSm 0 1, BuildOp.enableSm 0 2]

/-- The build sequence of claim C4, in the claim's stated order: select
block 0, select unit 0, mark wrap-bottom, emit `APIO_SET_PIN_DIRS(1)`,
emit `APIO_ADD_DELAY(APIO_SET_PINS(1), 31)`, mark wrap-top, emit
`APIO_ADD_DELAY(APIO_SET_PINS(0), 31)`, set the clock divider to
`(15000, 0)`, finalize the block, enable unit 0. -/
def c4_ops : List BuildOp :=
  [BuildOp.setBlock 0, BuildOp.setSm 0, BuildOp.wrapBottom,
   BuildOp.addInstr (APIO_SET_PIN_DIRS 1),
   BuildOp.addInstr (APIO_ADD_DELAY (APIO_SET_PINS 1) 31),
   BuildOp.wrapTop,
   BuildOp.addInstr (APIO_ADD_DELAY (APIO_SET_PINS 0) 31),
   BuildOp.clkdivSet 15000 0,
   BuildOp.endBlock,
   BuildOp.enableSms 0 1]

/-! ## Decoder evaluation on unconditional jumps -/

/-- Evaluation of the decoder on `APIO_JMP(T)` (condition 0, delay 0) for a
5-bit target `T`: the rendered target is the `uint32_t` conversion of the
`int` difference `T - start_offset`. -/
theorem decoder_jmp_eval (T O : Nat) (hT : T < 32) :
    apio_instruction_decoder (APIO_JMP T) O
      = "jmp " ++ Nat.repr (uint32_of_int ((T : Int) - (O : Int))) := by
  have hJ : APIO_JMP T = T := by
    unfold APIO_JMP
    rw [Nat.zero_or, and_mask_31, Nat.mod_eq_of_lt hT]
  have h13 : T >>> 13 = 0 := by
    rw [Nat.shiftRight_eq_div_pow]; exact Nat.div_eq_of_lt (by omega)
  have h8 : T >>> 8 = 0 := by
    rw [Nat.shiftRight_eq_div_pow]; exact Nat.div_eq_of_lt (by omega)
  have h5 : T >>> 5 = 0 := by
    rw [Nat.shiftRight_eq_div_pow]; exact Nat.div_eq_of_lt (by omega)
  rw [hJ]
  simp [apio_instruction_decoder, h13, h8, h5, and_mask_31,
    Nat.mod_eq_of_lt hT, append_delay]

/-! ## Claim theorems -/

/-- C1: `APIO_ADD_INSTR` performs no capacity check.  Emitting 33
instructions into block 0 (capacity `APIO_MAX_PIO_INSTRS = 32`) leaves the
write cursor at 33 and stores the 33rd word at index 32, one past the
32-entry buffer, with no error reported - the step function has no failure
outcome at all.  This refutes the claimed capacity-exceeded error and
exhibits the out-of-bounds write. -/
theorem C1_add_instr_unchecked_overflow :
    (emuRun emit_33 emuZero).offset 0 = APIO_MAX_PIO_INSTRS + 1 ∧
    (emuRun emit_33 emuZero).instr 0 APIO_MAX_PIO_INSTRS = APIO_SET_PIN_DIRS 1 := by
  decide

/-- C2: the backends are not observationally equivalent.  After the same
two `APIO_ENABLE_SM` calls (masks 1 then 2, both passing the macro's static
assert) from matching initial states, the hardware backend's CTRL register
for block 0 holds 2 (each call assigns `(mask & 0xF)`) while the emulated
backend's `enabled_sms[0]` holds 3 (each call ORs the mask in). -/
theorem C2_enable_sm_divergence :
    APIO_ENABLE_SM_CHECK 1 ∧ APIO_ENABLE_SM_CHECK 2 ∧
    (hwRun enable_twice hwInit).ctrl 0 = 2 ∧
    (emuRun enable_twice emuZero).enabled_sms 0 = 3 ∧
    (hwRun enable_twice hwInit).ctrl 0 ≠ (emuRun enable_twice emuZero).enabled_sms 0 := by
  decide

/-- C3: for a JMP instruction `APIO_JMP(T)` with 5-bit absolute target `T`
and origin offset `O ≤ T`, `apio_instruction_decoder` renders the jump
target as `T - O`, relative to the program's first instruction. -/
theorem C3_jmp_target_relative (T O : Nat) (hT : T < 32) (hO : O ≤ T) :
    apio_instruction_decoder (APIO_JMP T) O = "jmp " ++ Nat.repr (T - O) := by
  rw [decoder_jmp_eval T O hT]
  have : uint32_of_int ((T : Int) - (O : Int)) = T - O := by
    unfold uint32_of_int
    omega
  rw [this]

/-- Witness for C3 at the claim's own example: a jump to absolute offset 5
decoded with origin offset 2 renders as `jmp 3`. -/
theorem C3_jmp_target_relative_witness :
    apio_instruction_decoder (APIO_JMP 5) 2 = "jmp 3" := by
  have h := C3_jmp_target_relative 5 2 (by decide) (by decide)
  rw [h]; rfl

/-- C4 counterexample: running the claim's build sequence does not produce
the claimed descriptor.  The sequence marks wrap-top after two emissions,
so `wrap_top` records cursor value 2, not 1 (the instruction count 3 and
`wrap_bottom = 0` parts do hold). -/
theorem C4_scenario_counterexample :
    ¬ ((emuRun c4_ops emuZero).offset 0 = 3 ∧
       (emuRun c4_ops emuZero).wrap_bottom 0 0 = 0 ∧
       (emuRun c4_ops emuZero).wrap_top 0 0 = 1) := by
  decide

/-- C4 amended: the claim's build sequence yields a program of 3
instructions (cursor 3, finalized `max_offset` 3), with `wrap_bottom = 0`,
`wrap_top = 2`, and unit 0 enabled. -/
theorem C4_scenario_amended :
    (emuRun c4_ops emuZero).offset 0 = 3 ∧
    (emuRun c4_ops emuZero).max_offset 0 = 3 ∧
    (emuRun c4_ops emuZero).wrap_bottom 0 0 = 0 ∧
    (emuRun c4_ops emuZero).wrap_top 0 0 = 2 ∧
    (emuRun c4_ops emuZero).enabled_sms 0 = 1 := by
  decide

/-- C5: immediately after `APIO_SET_SM(u)` and before any instruction is
emitted for that unit, the unit's descriptor satisfies
`wrap_bottom = wrap_top = first_instr`, with `start` and `end` also equal
to the block's current write cursor - for every prior builder state. -/
theorem C5_set_sm_captures_cursor (s : _apio_emulated_pio_t) (u : Nat) :
    (emuStep (BuildOp.setSm u) s).wrap_bottom s.block u = s.offset s.block ∧
    (emuStep (BuildOp.setSm u) s).wrap_top s.block u = s.offset s.block ∧
    (emuStep (BuildOp.setSm u) s).first_instr s.block u = s.offset s.block ∧
    (emuStep (BuildOp.setSm u) s).start s.block u = s.offset s.block ∧
    (emuStep (BuildOp.setSm u) s).end_ s.block u = s.offset s.block := by
  simp [emuStep, upd2]

/-- C6: for every caller-supplied value `e` (a `uint32_t`, hence `e % 2^32`)
and every builder state, `APIO_SM_EXECCTRL_SET` stores `e` bitwise-ORed
with the unit's `wrap_bottom` placed in bits 11:7 and `wrap_top` placed in
bits 16:12 of the EXECCTRL register; the wrap bounds are combined in
automatically from the descriptor. -/
theorem C6_execctrl_combines_wrap (s : _apio_emulated_pio_t) (e : Nat) :
    ((emuStep (BuildOp.execctrlSet e) s).pio_sm_reg s.block s.sm).execctrl
      = (e % 2 ^ 32) ||| ((s.wrap_bottom s.block s.sm % 32) <<< 7)
          ||| ((s.wrap_top s.block s.sm % 32) <<< 12) := by
  have hwb : APIO_WRAP_BOTTOM_AS_REG (s.wrap_bottom s.block s.sm)
      = (s.wrap_bottom s.block s.sm % 32) <<< 7 := by
    unfold APIO_WRAP_BOTTOM_AS_REG; rw [and_mask_31]
  have hwt : APIO_WRAP_TOP_AS_REG (s.wrap_top s.block s.sm)
      = (s.wrap_top s.block s.sm % 32) <<< 12 := by
    unfold APIO_WRAP_TOP_AS_REG; rw [and_mask_31]
  have hlt : (e % 2 ^ 32)
      ||| APIO_WRAP_BOTTOM_AS_REG (s.wrap_bottom s.block s.sm)
      ||| APIO_WRAP_TOP_AS_REG (s.wrap_top s.block s.sm) < 2 ^ 32 := by
    apply Nat.or_lt_two_pow
    · apply Nat.or_lt_two_pow
      · exact Nat.mod_lt _ (by norm_num)
      · rw [hwb, Nat.shiftLeft_eq]
        have := Nat.mod_lt (s.wrap_bottom s.block s.sm) (show 0 < 32 by norm_num)
        omega
    · rw [hwt, Nat.shiftLeft_eq]
      have := Nat.mod_lt (s.wrap_top s.block s.sm) (show 0 < 32 by norm_num)
      omega
  simp only [emuStep, updReg, and_self, if_true]
  rw [Nat.mod_eq_of_lt hlt, hwb, hwt]

/-- C7: packing a 16-bit integer divisor and an 8-bit fractional divisor
with `APIO_CLKDIV` and unpacking with `APIO_CLKDIV_INT_FROM_REG` /
`APIO_CLKDIV_FRAC_FROM_REG` recovers exactly the inputs. -/
theorem C7_clkdiv_roundtrip (i f : Nat) (hi : i < 2 ^ 16) (hf : f < 2 ^ 8) :
    APIO_CLKDIV_INT_FROM_REG (APIO_CLKDIV i f) = i ∧
    APIO_CLKDIV_FRAC_FROM_REG (APIO_CLKDIV i f) = f := by
  have hb : f * 2 ^ 8 < 2 ^ 16 := by omega
  have hpack : APIO_CLKDIV i f = i * 2 ^ 16 + f * 2 ^ 8 := by
    unfold APIO_CLKDIV
    rw [and_mask_ffff, and_mask_ff, Nat.mod_eq_of_lt hi, Nat.mod_eq_of_lt hf,
        Nat.shiftLeft_eq, Nat.shiftLeft_eq]
    calc i * 2 ^ 16 ||| f * 2 ^ 8
        = 2 ^ 16 * i ||| f * 2 ^ 8 := by rw [Nat.mul_comm]
      _ = 2 ^ 16 * i + f * 2 ^ 8 := (Nat.mul_add_lt_is_or hb i).symm
      _ = i * 2 ^ 16 + f * 2 ^ 8 := by ring
  constructor
  · unfold APIO_CLKDIV_INT_FROM_REG
    rw [hpack, Nat.shiftRight_eq_div_pow, and_mask_ffff]
    omega
  · unfold APIO_CLKDIV_FRAC_FROM_REG
    rw [hpack, Nat.shiftRight_eq_div_pow, and_mask_ff]
    omega

/-- Witness for C7 at the example program's divider `(15000, 0)`. -/
theorem C7_clkdiv_roundtrip_witness :
    APIO_CLKDIV_INT_FROM_REG (APIO_CLKDIV 15000 0) = 15000 ∧
    APIO_CLKDIV_FRAC_FROM_REG (APIO_CLKDIV 15000 0) = 0 :=
  C7_clkdiv_roundtrip 15000 0 (by decide) (by decide)

/-- C8: the `APIO_ENABLE_SMS` static assert accepts exactly the non-zero
masks within the 4-unit count (1..15), but the `APIO_ENABLE_SM` static
assert `(SM_MASK < 0xF)` rejects the legal all-units mask 15 and accepts
the illegal empty mask 0, contradicting the claimed acceptance range. -/
theorem C8_enable_mask_checks :
    ¬ APIO_ENABLE_SM_CHECK 15 ∧ APIO_ENABLE_SM_CHECK 0 ∧
    (∀ m : Nat, APIO_ENABLE_SMS_CHECK m ↔ 1 ≤ m ∧ m ≤ 15) := by
  refine ⟨by decide, by decide, fun m => ?_⟩
  have h16 : (1 : Nat) <<< APIO_MAX_SMS_PER_BLOCK = 16 := by decide
  simp only [APIO_ENABLE_SMS_CHECK, h16]
  omega

/-- C9: the emulated TX FIFO shadow queue does not stop growing at its
capacity `APIO_MAX_FIFO_DEPTH = 4`: a fifth write increments the element
count to 5 and stores its value at index 4, one past the 4-slot array,
refuting the claimed bounded-queue invariant. -/
theorem C9_txf_count_exceeds_capacity :
    (emuRun txf_5 emuZero).tx_fifo_count 0 0 = APIO_MAX_FIFO_DEPTH + 1 ∧
    (emuRun txf_5 emuZero).tx_fifos 0 0 APIO_MAX_FIFO_DEPTH = 15 := by
  decide

/-- C10: for a JMP word `APIO_JMP(T)` whose target `T` is strictly less
than the origin offset `O` (a `uint8_t`), the decoder renders the decimal
of the 32-bit wraparound value `(T - O) mod 2^32 = 2^32 + T - O`, never a
negative number, and never fails. -/
theorem C10_jmp_target_wraparound (T O : Nat) (hT : T < 32) (hO : O < 256)
    (hTO : T < O) :
    apio_instruction_decoder (APIO_JMP T) O
      = "jmp " ++ Nat.repr (2 ^ 32 + T - O) := by
  rw [decoder_jmp_eval T O hT]
  have : uint32_of_int ((T : Int) - (O : Int)) = 2 ^ 32 + T - O := by
    unfold uint32_of_int
    have h1 : ((T : Int) - O) % ((2 : Int) ^ 32)
        = ((T : Int) - O + 2 ^ 32) % ((2 : Int) ^ 32) := by omega
    rw [h1, Int.emod_eq_of_lt (by omega) (by omega)]
    omega
  rw [this]

/-- Witness for C10 at the claim's own example: target 0 decoded with
origin offset 1 renders as `jmp 4294967295`. -/
theorem C10_jmp_target_wraparound_witness :
    apio_instruction_decoder (APIO_JMP 0) 1 = "jmp 4294967295" := by
  have h := C10_jmp_target_wraparound 0 1 (by decide) (by decide) (by decide)
  rw [h]; rfl

end Apio
